import Mathlib

/-!
Shallow embedding of `ExtendedADT7410.{h,cpp}` — an Arduino driver for the
ADT7410 temperature sensor.

Modelling conventions:
* C `unsigned char` / `uint8_t` values are `Nat`s; a store into an
  `unsigned char` object reduces the stored value `% 256`, mirroring C's
  unsigned integer conversion.
* C `unsigned short` expressions that mix in `int` arithmetic (the
  `tempValue - 8192` / `tempValue - 65536` adjustments, where the operands
  are promoted to `int` and the result is converted back to
  `unsigned short` on assignment) are modelled by computing in `Int` and
  reducing modulo 2^16 (`toUShort`).
* The I2C bus is modelled by a response function
  `resp : Nat → Nat → List Nat` giving, for a read transaction that
  addresses register `reg` and requests `num` bytes, the list of data bytes
  the device would supply.  The Arduino `Wire` library's
  `requestFrom(addr, num)` transfers at most `num` bytes into its receive
  buffer and `available()` reports exactly the bytes so buffered, hence the
  bytes delivered to the driver are `(resp reg num).take num`.
* Uninitialised C locals (`data[2]` in `readTemperature`, `status` in
  `getStatus`, `whoami` in `initialise`) hold indeterminate byte values;
  they appear as explicit parameters of the corresponding functions.
* Every member function returns, besides its C return value, the post-call
  object state and the ordered list of bus transactions it performed, so
  that claims about "no further bus reads" and field immutability can be
  stated.
-/

namespace ADTModel

/-! ### Register and mode constants (`ExtendedADT7410.h`) -/

def ADT7410_I2C_ADDRESS_0 : Nat := 0x48

def ADT7410_REG__TEMP_MSB : Nat := 0x00

def ADT7410_REG__TEMP_LSB : Nat := 0x01

def ADT7410_REG__ADT7410_STATUS : Nat := 0x2

def ADT7410_REG__CONFIG : Nat := 0x03

def ADT7410_REG__ADT7410_ID : Nat := 0xB

def ADT7410_MODE_16BIT : Nat := 0x80

def ADT7410_MODE_FAULTQUEUE_DEF : Nat := 0x00

def ADT7410_MODE_CONTINUOUS : Nat := 0x00

/-! ### Object state and bus-transaction trace -/

/-- The two private data members of class `ADT7410`. -/
structure ADT7410 where
  sensorID : Nat
  i2cAddress : Nat
deriving DecidableEq, Repr

/-- One I2C transaction as issued by the private primitives:
`busRead a reg n` is `readI2c`'s addressing write of `reg` followed by a
request of `n` data bytes from device address `a`; `busWrite a reg d` is
`writeI2c`'s write of data byte `d` into register `reg` of device `a`. -/
inductive BusEvent where
  | busRead (i2cAddr reg count : Nat)
  | busWrite (i2cAddr reg data : Nat)
deriving DecidableEq, Repr

/-- The receive loop of `readI2c`
(`while (Wire.available()) { data[i++] = Wire.read(); }`): successive bytes
are stored into the caller's buffer at indices `i, i+1, ...`; each store into
the `unsigned char` buffer reduces the byte `% 256`. -/
def storeLoop : (Nat → Nat) → Nat → List Nat → (Nat → Nat)
  | buf, _, [] => buf
  | buf, i, b :: rest => storeLoop (Function.update buf i (b % 256)) (i + 1) rest

/-- `ADT7410::readI2c(address, num, data)`: addresses register `reg`, requests
`num` bytes (`Wire.requestFrom` buffers at most `num` of the bytes the device
supplies), and copies the buffered bytes into `buf` starting at index 0.
Returns the updated buffer and the transaction performed. -/
def readI2c (dev : ADT7410) (resp : Nat → Nat → List Nat) (reg num : Nat)
    (buf : Nat → Nat) : (Nat → Nat) × List BusEvent :=
  (storeLoop buf 0 ((resp reg num).take num),
   [BusEvent.busRead dev.i2cAddress reg num])

/-- `ADT7410::writeI2c(address, data)`: a single register write. -/
def writeI2c (dev : ADT7410) (reg data : Nat) : List BusEvent :=
  [BusEvent.busWrite dev.i2cAddress reg (data % 256)]

/-- The constructor `ADT7410::ADT7410(unsigned char sensor_id)`. -/
def construct (sensor_id : Nat) : ADT7410 :=
  if sensor_id = 0 ∨ sensor_id = 1 ∨ sensor_id = 2 then
    { sensorID := sensor_id, i2cAddress := ADT7410_I2C_ADDRESS_0 + sensor_id }
  else
    { sensorID := 0, i2cAddress := ADT7410_I2C_ADDRESS_0 }

/-- `ADT7410::getID()`: returns the stored `sensorID`; no member is written,
so the post-call state is the receiver itself. -/
def getID (dev : ADT7410) : Nat × ADT7410 :=
  (dev.sensorID, dev)

/-- `ADT7410::getStatus()`: reads one byte from the status register into the
(uninitialised, value `s0`) local `status` and returns it. -/
def getStatus (dev : ADT7410) (resp : Nat → Nat → List Nat) (s0 : Nat) :
    Nat × ADT7410 × List BusEvent :=
  let r := readI2c dev resp ADT7410_REG__ADT7410_STATUS 1 (fun _ => s0 % 256)
  (r.1 0, dev, r.2)

/-- `ADT7410::initialise()`: reads one byte from the ID register into the
(uninitialised, value `w0`) local `whoami`, assembles the configuration byte
`ADT7410_MODE_16BIT | ADT7410_MODE_CONTINUOUS | 0b00000001`, writes it to the
configuration register, and returns `whoami`.  (`Wire.begin()` initialises
the bus library and performs no register transaction.) -/
def initialise (dev : ADT7410) (resp : Nat → Nat → List Nat) (w0 : Nat) :
    Nat × ADT7410 × List BusEvent :=
  let r := readI2c dev resp ADT7410_REG__ADT7410_ID 1 (fun _ => w0 % 256)
  let whoami := r.1 0
  let config := ADT7410_MODE_16BIT ||| ADT7410_MODE_CONTINUOUS ||| 0b00000001
  let w := writeI2c dev ADT7410_REG__CONFIG config
  (whoami, dev, r.2 ++ w)

/-- Conversion of an `int`-valued expression back into a C `unsigned short`
on assignment: reduction modulo 2^16. -/
def toUShort (x : Int) : Nat := (x % 65536).toNat

/-- Lines 90–104 of `ExtendedADT7410.cpp`: the resolution-dependent decoding
of the concatenated temperature value.  When `config & 0x80` is nonzero the
source takes its "13bit resolution" branch (shift right 3, subtract 8192 if
bit 12 is set); otherwise its "16bit resolution" branch (subtract 65536 if
bit 15 is set). -/
def decodeTemp (config tempValue : Nat) : Nat :=
  if config &&& 0x80 ≠ 0 then
    if tempValue >>> 3 &&& 0x1000 ≠ 0 then
      toUShort (((tempValue >>> 3 : Nat) : Int) - 8192)
    else tempValue >>> 3
  else
    if tempValue &&& 0x8000 ≠ 0 then toUShort ((tempValue : Int) - 65536)
    else tempValue

/-- `ADT7410::readTemperature()`: reads the status byte via `getStatus`; if
bit 7 is clear, reads the configuration byte (local `config` initialised to
0), reads two bytes into `data` (uninitialised, values `d0`, `d1`),
concatenates them big-endian and decodes per `decodeTemp`; otherwise returns
the initial `tempValue = 0` without touching the other registers. -/
def readTemperature (dev : ADT7410) (resp : Nat → Nat → List Nat)
    (s0 d0 d1 : Nat) : Nat × ADT7410 × List BusEvent :=
  let st := getStatus dev resp s0
  let status := st.1
  if status &&& 0x80 = 0 then
    let rc := readI2c dev resp ADT7410_REG__CONFIG 1 (fun _ => 0)
    let config := rc.1 0
    let rd := readI2c dev resp ADT7410_REG__TEMP_MSB 2
      (fun i => if i = 0 then d0 % 256 else d1 % 256)
    let tempValue := (rd.1 0) <<< 8 ||| rd.1 1
    (decodeTemp config tempValue, dev, st.2.2 ++ rc.2 ++ rd.2)
  else
    (0, dev, st.2.2)

/-- The handle invariant of the data model: `sensorID ∈ {0,1,2}` and
`i2cAddress = 0x48 + sensorID`. -/
def Inv (dev : ADT7410) : Prop :=
  (dev.sensorID = 0 ∨ dev.sensorID = 1 ∨ dev.sensorID = 2) ∧
  dev.i2cAddress = 0x48 + dev.sensorID

/-! ### Concrete device responses used to evaluate the code -/

/-- Device responses with status `0x00` (conversion ready), configuration
byte `0x81` (bit 7 set, as written by `initialise`), and temperature
registers `0x01 0x90` (raw value `0x0190` = 400). -/
def respReady16 : Nat → Nat → List Nat :=
  fun reg _ =>
    if reg = ADT7410_REG__ADT7410_STATUS then [0x00]
    else if reg = ADT7410_REG__CONFIG then [0x81]
    else if reg = ADT7410_REG__TEMP_MSB then [0x01, 0x90]
    else []

/-- Device responses with status `0x00`, configuration byte `0x00` (bit 7
clear) and temperature registers `0x1F 0xF8` (raw value `0x1FF8`). -/
def respReady13 : Nat → Nat → List Nat :=
  fun reg _ =>
    if reg = ADT7410_REG__ADT7410_STATUS then [0x00]
    else if reg = ADT7410_REG__CONFIG then [0x00]
    else if reg = ADT7410_REG__TEMP_MSB then [0x1F, 0xF8]
    else []

/-- Device responses with status byte `0x90` (bit 7 set: conversion not
ready), used to exercise the early-return path; the other registers hold
recognisable values to show they are never consulted. -/
def respSample : Nat → Nat → List Nat :=
  fun reg _ =>
    if reg = ADT7410_REG__ADT7410_STATUS then [0x90]
    else if reg = ADT7410_REG__CONFIG then [0x81]
    else if reg = ADT7410_REG__ADT7410_ID then [0xCB]
    else if reg = ADT7410_REG__TEMP_MSB then [0x01, 0x90]
    else []

/-- A sample caller buffer with recognisable initial contents. -/
def bufSample : Nat → Nat := fun j => j + 10

end ADTModel

namespace ADTModel

/-! ### Helper lemmas -/

theorem take_one_cons (x : Nat) (xs : List Nat) : List.take 1 (x :: xs) = [x] := by
  simp

theorem take_two_cons (x y : Nat) (xs : List Nat) :
    List.take 2 (x :: y :: xs) = [x, y] := by
  simp [List.take_succ_cons]

/-- Indices at or above the range touched by the receive loop keep their
previous buffer contents. -/
theorem storeLoop_eq_of_ge :
    ∀ (bytes : List Nat) (buf : Nat → Nat) (i j : Nat),
      i + bytes.length ≤ j → storeLoop buf i bytes j = buf j := by
  intro bytes
  induction bytes with
  | nil => intro buf i j _; rfl
  | cons b rest ih =>
    intro buf i j h
    simp only [List.length_cons] at h
    show storeLoop (Function.update buf i (b % 256)) (i + 1) rest j = buf j
    rw [ih (Function.update buf i (b % 256)) (i + 1) j (by omega)]
    exact Function.update_noteq (by omega) _ _

/-- A bit test written as `x & 2^n != 0` says exactly that the binary digit
of `x` at position `n` is 1. -/
theorem and_two_pow_ne_zero_iff (x n : Nat) :
    x &&& 2 ^ n ≠ 0 ↔ x / 2 ^ n % 2 = 1 := by
  rw [Nat.and_two_pow, Nat.testBit_to_div_mod]
  by_cases h : x / 2 ^ n % 2 = 1 <;>
    simp [h, (Nat.two_pow_pos n).ne']

/-- The big-endian concatenation of two bytes fits in 16 bits. -/
theorem concat_lt_65536 (a b : Nat) (ha : a < 256) (hb : b < 256) :
    a <<< 8 ||| b < 65536 := by
  have h1 : a <<< 8 < 2 ^ 16 := by
    rw [Nat.shiftLeft_eq]
    norm_num
    omega
  have h2 : b < 2 ^ 16 := by norm_num; omega
  have h3 := @Nat.or_lt_two_pow (a <<< 8) b 16 h1 h2
  norm_num at h3
  exact h3

/-- In the source's "16bit resolution" branch (`config & 0x80 == 0`), the
conditional adjustment `tempValue - 65536` is reduction modulo 2^16 of a
value already below 2^16, hence the branch is the identity. -/
theorem decodeTemp_bit7_clear (c t : Nat) (hc : c &&& 0x80 = 0)
    (ht : t < 65536) : decodeTemp c t = t := by
  unfold decodeTemp
  rw [if_neg (not_not_intro hc)]
  split
  · unfold toUShort
    omega
  · rfl

/-- In the source's "13bit resolution" branch (`config & 0x80 != 0`), the
result is either a 12-bit value or lies in the top 4096 values of the 16-bit
range. -/
theorem decodeTemp_bit7_set_range (c t : Nat) (hc : c &&& 0x80 ≠ 0)
    (ht : t < 65536) :
    decodeTemp c t ≤ 0x0FFF ∨
      (0xF000 ≤ decodeTemp c t ∧ decodeTemp c t ≤ 0xFFFF) := by
  unfold decodeTemp
  rw [if_pos hc]
  have hdiv : t >>> 3 = t / 8 := by
    rw [Nat.shiftRight_eq_div_pow]
  have hsh : t >>> 3 < 8192 := by rw [hdiv]; omega
  have hiff := and_two_pow_ne_zero_iff (t >>> 3) 12
  norm_num at hiff
  split
  case isTrue h =>
    have h12 : t >>> 3 / 4096 % 2 = 1 := hiff.mp h
    right
    unfold toUShort
    constructor <;> omega
  case isFalse h =>
    have h0 : t >>> 3 &&& 4096 = 0 := not_not.mp h
    have h12 : ¬(t >>> 3 / 4096 % 2 = 1) := fun hh => hiff.mpr hh h0
    left
    omega

/-- When the device supplies a status byte, `getStatus` returns it. -/
theorem getStatus_eval (dev : ADT7410) (resp : Nat → Nat → List Nat)
    (s0 s : Nat) (hs : resp ADT7410_REG__ADT7410_STATUS 1 = [s])
    (hslt : s < 256) : (getStatus dev resp s0).1 = s := by
  simp [getStatus, readI2c, hs, take_one_cons, storeLoop,
    Nat.mod_eq_of_lt hslt]

/-- `getStatus` performs exactly one bus transaction: the status read. -/
theorem getStatus_trace (dev : ADT7410) (resp : Nat → Nat → List Nat)
    (s0 : Nat) :
    (getStatus dev resp s0).2.2 =
      [BusEvent.busRead dev.i2cAddress ADT7410_REG__ADT7410_STATUS 1] := by
  simp [getStatus, readI2c]

/-- On the ready path (status bit 7 clear) with the device supplying the
configuration byte and both temperature bytes, `readTemperature` returns the
decode of the big-endian concatenation. -/
theorem readTemperature_ready (dev : ADT7410) (resp : Nat → Nat → List Nat)
    (s0 d0 d1 s c a b : Nat)
    (hs : resp ADT7410_REG__ADT7410_STATUS 1 = [s]) (hslt : s < 256)
    (hready : s &&& 0x80 = 0)
    (hc : resp ADT7410_REG__CONFIG 1 = [c]) (hclt : c < 256)
    (hd : resp ADT7410_REG__TEMP_MSB 2 = [a, b]) (ha : a < 256)
    (hb : b < 256) :
    (readTemperature dev resp s0 d0 d1).1 = decodeTemp c (a <<< 8 ||| b) := by
  have hsv := getStatus_eval dev resp s0 s hs hslt
  simp only [readTemperature, hsv, hready, if_pos]
  simp [readI2c, hc, hd, take_one_cons, take_two_cons, storeLoop,
    Function.update_apply, Nat.mod_eq_of_lt hclt, Nat.mod_eq_of_lt ha,
    Nat.mod_eq_of_lt hb]

/-- C1: with the status byte ready (bit 7 clear) and the configuration byte
`0x81` (bit 7 set), the spec says the two temperature bytes `0x01 0x90` are
decoded with the 16-bit rule and the result is 400.  The code's branch
condition is inverted: on config bit 7 set it applies the 13-bit rule
(`>>= 3`), so on these bytes it returns `0x0190 >> 3 = 50`, not 400. -/
theorem readTemperature_config_bit7_set_applies_13bit_rule :
    (readTemperature (construct 0) respReady16 0 0 0).1 = 50 ∧
    (readTemperature (construct 0) respReady16 0 0 0).1 ≠ 400 := by
  constructor <;> decide

/-- C2: with the status byte ready and the configuration byte `0x00` (bit 7
clear), the spec says the raw value `0x1FF8` is decoded with the 13-bit rule
giving 1023.  The code's inverted branch condition applies the 16-bit rule
instead (no shift), returning `0x1FF8` = 8184, not 1023. -/
theorem readTemperature_config_bit7_clear_applies_16bit_rule :
    (readTemperature (construct 0) respReady13 0 0 0).1 = 8184 ∧
    (readTemperature (construct 0) respReady13 0 0 0).1 ≠ 1023 := by
  constructor <;> decide

/-- C3: whenever the status byte delivered by the device has bit 7 set,
`readTemperature` returns 0 and its bus trace is exactly the one status
read — the configuration register and the temperature registers are never
read, whatever they contain. -/
theorem readTemperature_not_ready_returns_zero (dev : ADT7410)
    (resp : Nat → Nat → List Nat) (s0 d0 d1 s : Nat)
    (hs : resp ADT7410_REG__ADT7410_STATUS 1 = [s]) (hslt : s < 256)
    (hbusy : s &&& 0x80 ≠ 0) :
    readTemperature dev resp s0 d0 d1 =
      (0, dev,
       [BusEvent.busRead dev.i2cAddress ADT7410_REG__ADT7410_STATUS 1]) := by
  have hsv := getStatus_eval dev resp s0 s hs hslt
  have htr := getStatus_trace dev resp s0
  simp only [readTemperature, hsv, htr]
  rw [if_neg hbusy]

/-- C3 witness: with status byte `0x90` the call returns 0 and only the
status register is read. -/
theorem readTemperature_not_ready_returns_zero_w :
    readTemperature (construct 2) respSample 3 7 9 =
      (0, construct 2, [BusEvent.busRead (construct 2).i2cAddress
        ADT7410_REG__ADT7410_STATUS 1]) :=
  readTemperature_not_ready_returns_zero (construct 2) respSample 3 7 9 0x90
    rfl (by decide) (by decide)

/-- C4: the constructor stores `sensor_id` and address `0x48 + sensor_id`
for `sensor_id ∈ {0,1,2}`, and silently falls back to `sensorID = 0`,
`i2cAddress = 0x48` for any other argument. -/
theorem construct_validates_sensor_id (s : Nat) :
    (s = 0 ∨ s = 1 ∨ s = 2 →
      construct s = { sensorID := s, i2cAddress := 0x48 + s }) ∧
    (¬(s = 0 ∨ s = 1 ∨ s = 2) →
      construct s = { sensorID := 0, i2cAddress := 0x48 }) := by
  refine ⟨fun h => ?_, fun h => ?_⟩
  · unfold construct
    rw [if_pos h]
    rfl
  · unfold construct
    rw [if_neg h]
    rfl

/-- C4 witness: sensor ID 1 yields address 0x49; sensor ID 7 falls back to
ID 0 and address 0x48. -/
theorem construct_validates_sensor_id_w :
    construct 1 = { sensorID := 1, i2cAddress := 0x48 + 1 } ∧
    construct 7 = { sensorID := 0, i2cAddress := 0x48 } :=
  ⟨(construct_validates_sensor_id 1).1 (by decide),
   (construct_validates_sensor_id 7).2 (by decide)⟩

/-- C5: `initialise` performs exactly two bus transactions — a one-byte read
of the ID register `0x0B` followed by a single write of the configuration
byte `0x81` (= `ADT7410_MODE_16BIT | ADT7410_MODE_CONTINUOUS | 0b1`) to the
configuration register `0x03` — and returns the raw ID byte the device
supplied. -/
theorem initialise_writes_config_byte (dev : ADT7410)
    (resp : Nat → Nat → List Nat) (w0 b : Nat)
    (hid : resp ADT7410_REG__ADT7410_ID 1 = [b]) (hb : b < 256) :
    initialise dev resp w0 =
      (b, dev,
       [BusEvent.busRead dev.i2cAddress ADT7410_REG__ADT7410_ID 1,
        BusEvent.busWrite dev.i2cAddress ADT7410_REG__CONFIG 0x81]) := by
  simp [initialise, readI2c, writeI2c, hid, take_one_cons, storeLoop,
    Nat.mod_eq_of_lt hb, ADT7410_MODE_16BIT, ADT7410_MODE_CONTINUOUS]

/-- C5 witness: with the device answering `0xCB` on the ID register,
`initialise` returns `0xCB` and writes `0x81` to register 3. -/
theorem initialise_writes_config_byte_w :
    initialise (construct 0) respSample 5 =
      (0xCB, construct 0,
       [BusEvent.busRead (construct 0).i2cAddress ADT7410_REG__ADT7410_ID 1,
        BusEvent.busWrite (construct 0).i2cAddress ADT7410_REG__CONFIG
          0x81]) :=
  initialise_writes_config_byte (construct 0) respSample 5 0xCB rfl (by decide)

/-- C6: `getStatus` returns the byte delivered by the bus read of the status
register `0x02` unmodified. -/
theorem getStatus_returns_raw_byte (dev : ADT7410)
    (resp : Nat → Nat → List Nat) (s0 b : Nat)
    (hs : resp ADT7410_REG__ADT7410_STATUS 1 = [b]) (hb : b < 256) :
    (getStatus dev resp s0).1 = b :=
  getStatus_eval dev resp s0 b hs hb

/-- C6 witness: with the device answering `0x90`, `getStatus` returns
`0x90`. -/
theorem getStatus_returns_raw_byte_w :
    (getStatus (construct 0) respSample 3).1 = 0x90 :=
  getStatus_returns_raw_byte (construct 0) respSample 3 0x90 rfl (by decide)

/-- C7: for every requested count and every sequence of bytes the bus makes
available, `readI2c` leaves every buffer index at or above `num` (and more
precisely at or above `min num available`) unchanged: the receive loop stops
after `min(count, available)` bytes and never writes past slot `count`. -/
theorem readI2c_writes_within_bounds (dev : ADT7410)
    (resp : Nat → Nat → List Nat) (reg num : Nat) (buf : Nat → Nat) :
    (∀ j, num ≤ j → (readI2c dev resp reg num buf).1 j = buf j) ∧
    (∀ j, min num (resp reg num).length ≤ j →
      (readI2c dev resp reg num buf).1 j = buf j) := by
  have hlen : ((resp reg num).take num).length =
      min num (resp reg num).length := by
    simp [List.length_take]
  constructor
  · intro j hj
    apply storeLoop_eq_of_ge
    rw [hlen]
    omega
  · intro j hj
    apply storeLoop_eq_of_ge
    rw [hlen]
    omega

/-- C7 witness: a 2-byte read leaves buffer slot 5 untouched. -/
theorem readI2c_writes_within_bounds_w :
    (readI2c (construct 0) respSample ADT7410_REG__TEMP_MSB 2 bufSample).1 5 =
      bufSample 5 :=
  (readI2c_writes_within_bounds (construct 0) respSample ADT7410_REG__TEMP_MSB
    2 bufSample).1 5 (by decide)

/-- C8: every constructed handle satisfies `sensorID ∈ {0,1,2}` and
`i2cAddress = 0x48 + sensorID`; `initialise`, `readTemperature`, `getStatus`
and `getID` all leave the handle unchanged (so the invariant persists), and
`getID` returns the stored `sensorID`. -/
theorem handle_invariant_preserved (s : Nat) (resp : Nat → Nat → List Nat)
    (w0 s0 d0 d1 : Nat) :
    Inv (construct s) ∧
    (initialise (construct s) resp w0).2.1 = construct s ∧
    (readTemperature (construct s) resp s0 d0 d1).2.1 = construct s ∧
    (getStatus (construct s) resp s0).2.1 = construct s ∧
    getID (construct s) = ((construct s).sensorID, construct s) := by
  refine ⟨?_, rfl, ?_, rfl, rfl⟩
  · unfold Inv construct
    split
    case isTrue h => exact ⟨h, rfl⟩
    case isFalse h => exact ⟨Or.inl rfl, rfl⟩
  · simp only [readTemperature]
    split <;> rfl

/-- C9: whenever `readTemperature` takes the source's "16bit resolution"
branch (status ready, configuration bit 7 clear), the `tempValue - 65536`
adjustment is the identity modulo 2^16, and the returned value equals the
big-endian concatenation `data[0] << 8 | data[1]` for every pair of register
bytes. -/
theorem sixteen_bit_branch_identity (dev : ADT7410)
    (resp : Nat → Nat → List Nat) (s0 d0 d1 s c a b : Nat)
    (hs : resp ADT7410_REG__ADT7410_STATUS 1 = [s]) (hslt : s < 256)
    (hready : s &&& 0x80 = 0)
    (hc : resp ADT7410_REG__CONFIG 1 = [c]) (hclt : c < 256)
    (hmode : c &&& 0x80 = 0)
    (hd : resp ADT7410_REG__TEMP_MSB 2 = [a, b]) (ha : a < 256)
    (hb : b < 256) :
    (readTemperature dev resp s0 d0 d1).1 = a <<< 8 ||| b := by
  rw [readTemperature_ready dev resp s0 d0 d1 s c a b hs hslt hready hc hclt
    hd ha hb]
  exact decodeTemp_bit7_clear c _ hmode (concat_lt_65536 a b ha hb)

/-- C9 witness: config `0x00`, bytes `0x1F 0xF8` — the result is the raw
concatenation `0x1FF8`. -/
theorem sixteen_bit_branch_identity_w :
    (readTemperature (construct 0) respReady13 0 0 0).1 =
      0x1F <<< 8 ||| 0xF8 :=
  sixteen_bit_branch_identity (construct 0) respReady13 0 0 0 0 0 0x1F 0xF8
    rfl (by decide) (by decide) rfl (by decide) (by decide) rfl (by decide)
    (by decide)

/-- C10: whenever `readTemperature` takes the source's "13bit resolution"
branch (status ready, configuration bit 7 set), the result lies in
`[0, 0x0FFF] ∪ [0xF000, 0xFFFF]`: a correct 16-bit two's-complement packing
of a signed 13-bit value, for every pair of register bytes. -/
theorem thirteen_bit_branch_range (dev : ADT7410)
    (resp : Nat → Nat → List Nat) (s0 d0 d1 s c a b : Nat)
    (hs : resp ADT7410_REG__ADT7410_STATUS 1 = [s]) (hslt : s < 256)
    (hready : s &&& 0x80 = 0)
    (hc : resp ADT7410_REG__CONFIG 1 = [c]) (hclt : c < 256)
    (hmode : c &&& 0x80 ≠ 0)
    (hd : resp ADT7410_REG__TEMP_MSB 2 = [a, b]) (ha : a < 256)
    (hb : b < 256) :
    (readTemperature dev resp s0 d0 d1).1 ≤ 0x0FFF ∨
      (0xF000 ≤ (readTemperature dev resp s0 d0 d1).1 ∧
        (readTemperature dev resp s0 d0 d1).1 ≤ 0xFFFF) := by
  rw [readTemperature_ready dev resp s0 d0 d1 s c a b hs hslt hready hc hclt
    hd ha hb]
  exact decodeTemp_bit7_set_range c _ hmode (concat_lt_65536 a b ha hb)

/-- C10 witness: config `0x81`, bytes `0x01 0x90` — the result 50 lies in
`[0, 0x0FFF]`. -/
theorem thirteen_bit_branch_range_w :
    (readTemperature (construct 0) respReady16 0 0 0).1 ≤ 0x0FFF ∨
      (0xF000 ≤ (readTemperature (construct 0) respReady16 0 0 0).1 ∧
        (readTemperature (construct 0) respReady16 0 0 0).1 ≤ 0xFFFF) :=
  thirteen_bit_branch_range (construct 0) respReady16 0 0 0 0 0x81 0x01 0x90
    rfl (by decide) (by decide) rfl (by decide) (by decide) rfl (by decide)
    (by decide)

end ADTModel
